import Mathlib

/-!
Shallow embedding of the asset-client core (src/core/AssetClient.ts and
src/core/ResilientAssetClient.ts) and proofs about the claims of its
specification.

The backing store is modelled as an explicit state (`DB`) holding the three
record families (`asset`, `asset_log`, `asset_retrieval`).  SQL queries become
list filters, inserts become appends, the single `UPDATE ... WHERE id` becomes
a map over the rows.  A transaction is a pure function from the pre-state to
either a post-state (COMMIT) or an error with the pre-state kept (ROLLBACK).
Values produced by the store (generated ids, CURRENT_TIMESTAMP) are passed in
as explicit arguments.  Timestamps are `Nat`.
-/

namespace AssetSpec

/-- The `Asset` row interface from src/types/index.ts: `user_key` is nullable
(`null` marks the master copy) and `description` is nullable; every other
content field is text.  `created_at : Date` is modelled as `Nat`. -/
structure Asset where
  id : String
  created_at : Nat
  user_key : Option String
  asset_registry : String
  asset_key : String
  asset_class : String
  asset_type : String
  description : Option String
  data : String
  data_hash : String
  registry_commit : String
  registry_commit_url : String
deriving DecidableEq

/-- One row of the append-only `asset_log` table, as inserted by
`AssetClient.archiveToLog` (lines 161-174): the archived asset's original
`created_at` and `id` plus all of its content columns. -/
structure AssetLogEntry where
  created_at : Nat
  asset_id : String
  user_key : Option String
  asset_registry : String
  asset_key : String
  asset_class : String
  asset_type : String
  description : Option String
  data : String
  data_hash : String
  registry_commit : String
  registry_commit_url : String
deriving DecidableEq

/-- One row of the append-only `asset_retrieval` table, as inserted by
`AssetClient.logRetrieval` (lines 176-187). -/
structure RetrievalEntry where
  user_key : String
  asset_id : String
  asset_registry : String
  asset_key : String
deriving DecidableEq

/-- The backing store: the three record families of the schema. -/
structure DB where
  asset : List Asset
  asset_log : List AssetLogEntry
  asset_retrieval : List RetrievalEntry
deriving DecidableEq

/-- The error taxonomy of src/types/index.ts plus a constructor for plain
`Error` values (for example the parameter-validation throws). -/
inductive GetAssetError where
  | assetNotFound (msg : String)
  | assetUpdateError (msg : String)
  | databaseConnectionError (msg : String)
  | genericError (msg : String)
deriving DecidableEq

def GetAssetError.isAssetUpdateError : GetAssetError → Bool
  | GetAssetError.assetUpdateError _ => true
  | _ => false

def GetAssetError.isDatabaseConnectionError : GetAssetError → Bool
  | GetAssetError.databaseConnectionError _ => true
  | _ => false

/-- The registered-row query of `getAssetWithTransaction` (lines 58-64):
`SELECT * FROM asset WHERE user_key = $1 AND asset_registry = $2 AND
asset_key = $3`. -/
def queryRegistered (db : DB) (uk reg key : String) : List Asset :=
  db.asset.filter (fun a => a.user_key == some uk && a.asset_registry == reg && a.asset_key == key)

/-- The master-row query of `getAssetWithTransaction` (lines 67-73):
`SELECT * FROM asset WHERE user_key IS NULL AND asset_registry = $1 AND
asset_key = $2`. -/
def queryMaster (db : DB) (reg key : String) : List Asset :=
  db.asset.filter (fun a => a.user_key == none && a.asset_registry == reg && a.asset_key == key)

/-- The row inserted by `AssetClient.createRegistration` (lines 115-136): every
content column is copied from the master row, `user_key` is this consumer's
key, and the store supplies the generated `id` and default `created_at`
(passed in here as `newId` and `now`). -/
def registrationRow (uk : String) (masterAsset : Asset) (newId : String) (now : Nat) : Asset :=
  { id := newId
    created_at := now
    user_key := some uk
    asset_registry := masterAsset.asset_registry
    asset_key := masterAsset.asset_key
    asset_class := masterAsset.asset_class
    asset_type := masterAsset.asset_type
    description := masterAsset.description
    data := masterAsset.data
    data_hash := masterAsset.data_hash
    registry_commit := masterAsset.registry_commit
    registry_commit_url := masterAsset.registry_commit_url }

/-- `AssetClient.createRegistration`: INSERT the clone, RETURNING the new
row. -/
def createRegistration (db : DB) (uk : String) (masterAsset : Asset) (newId : String)
    (now : Nat) : DB × Asset :=
  let row := registrationRow uk masterAsset newId now
  ({ db with asset := db.asset ++ [row] }, row)

/-- The column assignments of `AssetClient.updateRegistration` (lines 138-159):
`SET data, data_hash, registry_commit, registry_commit_url, description,
created_at = CURRENT_TIMESTAMP`; all other columns (in particular `id`,
`user_key`, `asset_registry`, `asset_key`, `asset_class`, `asset_type`) are
untouched. -/
def applyUpdate (masterAsset : Asset) (now : Nat) (a : Asset) : Asset :=
  { a with
    data := masterAsset.data
    data_hash := masterAsset.data_hash
    registry_commit := masterAsset.registry_commit
    registry_commit_url := masterAsset.registry_commit_url
    description := masterAsset.description
    created_at := now }

/-- `AssetClient.updateRegistration`: UPDATE ... WHERE id = registered id,
RETURNING the updated row (the row passed in came from the registered query,
so the returned row is its updated image). -/
def updateRegistration (db : DB) (registeredAsset masterAsset : Asset) (now : Nat) :
    DB × Asset :=
  ({ db with asset := db.asset.map (fun a =>
      if a.id = registeredAsset.id then applyUpdate masterAsset now a else a) },
   applyUpdate masterAsset now registeredAsset)

/-- The `asset_log` row built by `AssetClient.archiveToLog` from the asset it
is given: the asset's own `created_at`, `id` and all content columns,
verbatim. -/
def archiveEntry (a : Asset) : AssetLogEntry :=
  { created_at := a.created_at
    asset_id := a.id
    user_key := a.user_key
    asset_registry := a.asset_registry
    asset_key := a.asset_key
    asset_class := a.asset_class
    asset_type := a.asset_type
    description := a.description
    data := a.data
    data_hash := a.data_hash
    registry_commit := a.registry_commit
    registry_commit_url := a.registry_commit_url }

/-- `AssetClient.archiveToLog`: append one archive entry. -/
def archiveToLog (db : DB) (a : Asset) : DB :=
  { db with asset_log := db.asset_log ++ [archiveEntry a] }

/-- `AssetClient.logRetrieval`: append one retrieval entry. -/
def logRetrieval (db : DB) (uk assetId reg key : String) : DB :=
  { db with asset_retrieval := db.asset_retrieval ++
      [{ user_key := uk, asset_id := assetId, asset_registry := reg, asset_key := key }] }

/-- The body of `AssetClient.getAssetWithTransaction` (lines 51-113) between
BEGIN and COMMIT.  The source runs the registered query, then the master
query, then checks `master.rows.length === 0`; both queries are reads, so the
check is modelled first.  The staleness test `data_hash !== data_hash` is the
negation of the equality test here.  The only throw site in the body is
`AssetNotFoundError`, which the catch block re-raises unchanged (line
106-107); the catch's wrapping of other errors in `AssetUpdateError` has no
pure counterpart because the pure body cannot fail any other way. -/
def getAssetWithTransaction (db : DB) (uk reg key newId : String) (now : Nat) :
    Except GetAssetError (DB × String) :=
  match queryMaster db reg key with
  | [] => Except.error (GetAssetError.assetNotFound ("Asset " ++ reg ++ "/" ++ key ++ " not found"))
  | masterAsset :: _ =>
    match queryRegistered db uk reg key with
    | [] =>
      let res := createRegistration db uk masterAsset newId now
      Except.ok (logRetrieval res.1 uk res.2.id reg key, res.2.data)
    | registeredAsset :: _ =>
      if registeredAsset.data_hash = masterAsset.data_hash then
        Except.ok (logRetrieval db uk registeredAsset.id reg key, registeredAsset.data)
      else
        let db1 := archiveToLog db registeredAsset
        let res := updateRegistration db1 registeredAsset masterAsset now
        Except.ok (logRetrieval res.1 uk res.2.id reg key, res.2.data)

/-- One whole transactional attempt with COMMIT/ROLLBACK semantics: on success
the new store state is kept, on error the store state is the unchanged
pre-state (the source issues ROLLBACK on every error path). -/
def getAssetTx (db : DB) (uk reg key newId : String) (now : Nat) :
    DB × Except GetAssetError String :=
  match getAssetWithTransaction db uk reg key newId now with
  | Except.ok res => (res.1, Except.ok res.2)
  | Except.error e => (db, Except.error e)

/-- `AssetClient.getConnection` (lines 189-197): a failed `pool.connect()` is
rethrown as `DatabaseConnectionError` with the original message appended.  The
pool outcome is an explicit argument. -/
def getConnection (connect : Except String Unit) : Except GetAssetError Unit :=
  match connect with
  | Except.ok _ => Except.ok ()
  | Except.error msg =>
    Except.error (GetAssetError.databaseConnectionError ("Failed to connect to database: " ++ msg))

/-- One attempt as seen by the retry loop of `getAsset`: acquire a connection
(its `DatabaseConnectionError` propagates unwrapped, since line 52 sits before
the try block), then run the transaction. -/
def txAttempt (connect : Except String Unit) (db : DB) (uk reg key newId : String)
    (now : Nat) : Except GetAssetError String :=
  match getConnection connect with
  | Except.error e => Except.error e
  | Except.ok _ => (getAssetTx db uk reg key newId now).2

/-- The observable outcome of the retry loop of `AssetClient.getAsset`:
the final result, how many attempts ran, and the backoff delays (in ms)
performed between attempts, in order. -/
structure RetryTrace where
  result : Except GetAssetError String
  attemptsMade : Nat
  delays : List Nat

/-- The `while (retries < this.maxRetries)` loop of `AssetClient.getAsset`
(lines 34-48), with `fuel = maxRetries - retries` making the loop condition
`0 < fuel`.  The catch block increments `retries`, rethrows the caught error
once `retries >= maxRetries`, and otherwise sleeps `retryDelay * retries`
before the next attempt.  Note that the catch does not inspect the error: it
rethrows only on exhaustion, never early.  Falling out of the loop (only
possible when `maxRetries = 0`) throws `AssetUpdateError` with the literal
message of line 48. -/
def retryLoopAux (mR d : Nat) (attempt : Nat → Except GetAssetError String) :
    Nat → Nat → RetryTrace
  | _, 0 =>
    { result := Except.error (GetAssetError.assetUpdateError "Max retries exceeded")
      attemptsMade := 0
      delays := [] }
  | r, fuel + 1 =>
    match attempt r with
    | Except.ok s => { result := Except.ok s, attemptsMade := 1, delays := [] }
    | Except.error e =>
      if r + 1 ≥ mR then { result := Except.error e, attemptsMade := 1, delays := [] }
      else
        let rest := retryLoopAux mR d attempt (r + 1) fuel
        { result := rest.result
          attemptsMade := rest.attemptsMade + 1
          delays := d * (r + 1) :: rest.delays }

/-- `AssetClient.getAsset` after parameter validation: run the retry loop
starting at `retries = 0`.  The `attempt` argument gives the outcome of the
nth transactional attempt (counted from 0). -/
def assetClientGetAsset (maxRetries retryDelay : Nat)
    (attempt : Nat → Except GetAssetError String) : RetryTrace :=
  retryLoopAux maxRetries retryDelay attempt 0 maxRetries

/-!
The resilience layer, src/core/ResilientAssetClient.ts.  Its state is the
in-memory fallback cache (a JS `Map`, modelled as an insertion-ordered
association list with the `Map` operations) and the offline flag.  The wrapped
`getAsset` outcome is an explicit argument, as is the current time.
-/

/-- The `FallbackEntry` interface: payload plus last-updated timestamp. -/
structure FallbackEntry where
  data : String
  lastUpdated : Nat
deriving DecidableEq

/-- The in-memory fallback cache: a JS `Map<string, FallbackEntry>` as an
insertion-ordered association list with distinct keys. -/
abbrev Cache := List (String × FallbackEntry)

/-- `Map.set`: replace in place when the key is present, otherwise append. -/
def cacheSet (c : Cache) (k : String) (v : FallbackEntry) : Cache :=
  if c.any (fun p => p.1 == k) then
    c.map (fun p => if p.1 == k then (k, v) else p)
  else c ++ [(k, v)]

/-- `Map.get`: the entry stored under `k`, if any. -/
def cacheGet (c : Cache) (k : String) : Option FallbackEntry :=
  (c.find? (fun p => p.1 == k)).map Prod.snd

/-- `Map.delete`: drop the entry stored under `k`, if any. -/
def cacheDelete (c : Cache) (k : String) : Cache :=
  c.filter (fun p => p.1 != k)

/-- The mutable state of a `ResilientAssetClient`: `fallbackCache` and
`isOfflineMode`. -/
structure ResilientState where
  fallbackCache : Cache
  isOfflineMode : Bool
deriving DecidableEq

/-- `ResilientAssetClient.getAssetWithFallback` (lines 24-64).  The cache key
is the template string `assetRegistry + "/" + assetKey` (line 25).  On a
successful inner `getAsset`: store the payload under that key and clear the
offline flag (the source clears it only when it was set, which nets to
unconditionally false).  On failure: if a cached entry exists return its
payload, setting the offline flag exactly when the error is a
`DatabaseConnectionError`; otherwise rethrow the original error with the
state untouched. -/
def getAssetWithFallback (st : ResilientState) (reg key : String)
    (outcome : Except GetAssetError String) (now : Nat) :
    ResilientState × Except GetAssetError String :=
  match outcome with
  | Except.ok d =>
    ({ fallbackCache := cacheSet st.fallbackCache (reg ++ "/" ++ key) { data := d, lastUpdated := now }
       isOfflineMode := false },
     Except.ok d)
  | Except.error e =>
    match cacheGet st.fallbackCache (reg ++ "/" ++ key) with
    | some cached =>
      ({ st with isOfflineMode :=
          if GetAssetError.isDatabaseConnectionError e then true else st.isOfflineMode },
       Except.ok cached.data)
    | none => (st, Except.error e)

/-- `ResilientAssetClient.clearFallbackCache` (lines 106-112): the argument is
optional and the source tests it with JS truthiness (`if (assetKey)`), so both
`undefined` and the empty string clear the whole cache; any other string is
passed to `Map.delete`. -/
def clearFallbackCache (c : Cache) (assetKey : Option String) : Cache :=
  match assetKey with
  | some k => if k = "" then [] else cacheDelete c k
  | none => []

/-- The outcome of `JSON.parse` plus the shape check implicit in `for...of`,
which is all of the input-dependent behaviour of `importFallbackCache`:
`err` is a `JSON.parse` throw (syntactically invalid input), `nonArray` is a
parse that succeeds with a non-iterable value (for example the input string
"42"), carrying the `TypeError` message of the failed `for...of`, and `arr`
is a parse that yields an array of `key`/`data`/`lastUpdated` entries. -/
inductive ParseResult where
  | err (msg : String)
  | nonArray (msg : String)
  | arr (entries : List (String × String × Nat))
deriving DecidableEq

/-- `ResilientAssetClient.importFallbackCache` (lines 130-149), returning the
new cache and the raised error message, if any.  The order of operations in
the source is what matters: `JSON.parse` runs first (a throw there is caught
and rewrapped before the cache is touched), then `this.fallbackCache.clear()`,
then the `for...of` loop (whose throw on a non-iterable value is caught and
rewrapped only after the clear has happened). -/
def importFallbackCache (c : Cache) (p : ParseResult) : Cache × Option String :=
  match p with
  | ParseResult.err msg => (c, some ("Failed to import fallback cache: " ++ msg))
  | ParseResult.nonArray msg => ([], some ("Failed to import fallback cache: " ++ msg))
  | ParseResult.arr es =>
    (es.foldl (fun acc e => cacheSet acc e.1 { data := e.2.1, lastUpdated := e.2.2 }) [], none)

/-- One tick of the `setInterval` callback installed by
`ResilientAssetClient.startHealthCheck` (lines 154-167): when the offline flag
is set, run the probe `super.getAsset('health-check', 'test')` (its outcome is
the `probe` argument); on success clear the flag, on any error keep the state;
when the flag is clear do nothing.  The returned boolean records whether the
probe was issued. -/
def healthCheckTick (st : ResilientState) (probe : Except GetAssetError String) :
    ResilientState × Bool :=
  if st.isOfflineMode then
    match probe with
    | Except.ok _ => ({ st with isOfflineMode := false }, true)
    | Except.error _ => (st, true)
  else (st, false)

/-!
Concrete example values used by the witnesses and counterexamples.
-/

/-- A concrete master row (null `user_key`) for registry "r", key "k". -/
def exMaster : Asset :=
  { id := "m1"
    created_at := 1
    user_key := none
    asset_registry := "r"
    asset_key := "k"
    asset_class := "config"
    asset_type := "json"
    description := some "cfg"
    data := "payload-v2"
    data_hash := "h2"
    registry_commit := "c2"
    registry_commit_url := "u2" }

/-- A concrete registered row for consumer "svc" on ("r","k"), with a
fingerprint differing from `exMaster`'s. -/
def exRegistered : Asset :=
  { id := "a1"
    created_at := 0
    user_key := some "svc"
    asset_registry := "r"
    asset_key := "k"
    asset_class := "config"
    asset_type := "json"
    description := some "old cfg"
    data := "payload-v1"
    data_hash := "h1"
    registry_commit := "c1"
    registry_commit_url := "u1" }

/-- The registered row brought up to date with `exMaster`. -/
def exRegisteredCurrent : Asset :=
  applyUpdate exMaster 1 exRegistered

/-- An empty store. -/
def exDBempty : DB := { asset := [], asset_log := [], asset_retrieval := [] }

/-- A store holding only the master row. -/
def exDBmasterOnly : DB := { asset := [exMaster], asset_log := [], asset_retrieval := [] }

/-- A store holding the master row and a stale registered row. -/
def exDBstale : DB := { asset := [exMaster, exRegistered], asset_log := [], asset_retrieval := [] }

/-- A store holding the master row and an up-to-date registered row. -/
def exDBcurrent : DB :=
  { asset := [exMaster, exRegisteredCurrent], asset_log := [], asset_retrieval := [] }

/-- A store holding a registered row for ("r","k") but no master row at
all. -/
def exDBregisteredOnly : DB :=
  { asset := [exRegistered], asset_log := [], asset_retrieval := [] }

/-!
Theorems.  The retry-loop helper first, then one theorem (plus witness or
counterexample) per claim.
-/

/-- When every attempt fails with the same error `e`, the loop runs all of its
remaining attempts, sleeps `d * n` after the nth failed attempt except the
last, and finally re-raises `e` itself. -/
theorem retryLoopAux_const_error (mR d : Nat) (attempt : Nat → Except GetAssetError String)
    (e : GetAssetError) (hatt : ∀ n, attempt n = Except.error e) :
    ∀ fuel r, r + fuel = mR → 0 < fuel →
      retryLoopAux mR d attempt r fuel =
        { result := Except.error e
          attemptsMade := fuel
          delays := (List.range' (r + 1) (fuel - 1)).map (fun n => d * n) } := by
  intro fuel
  induction fuel with
  | zero => intro r _ h; exact absurd h (by omega)
  | succ f ih =>
    intro r hsum _
    by_cases hf : f = 0
    · subst hf
      have hge : r + 1 ≥ mR := by omega
      simp [retryLoopAux, hatt r, hge]
    · have hlt : ¬ r + 1 ≥ mR := by omega
      obtain ⟨g, rfl⟩ : ∃ g, f = g + 1 := ⟨f - 1, by omega⟩
      have hrec := ih (r + 1) (by omega) (by omega)
      rw [retryLoopAux]
      simp only [hatt r]
      rw [if_neg hlt, hrec]
      simp [List.range']

/-- C1: the claim says a transactional attempt failing with `AssetNotFound`
is surfaced immediately, with zero retries and no backoff delay.  At the
concrete input below — default configuration (maxRetries 3, retryDelay
1000ms) and an empty store, so every attempt genuinely raises
`AssetNotFoundError` from the transaction — the loop instead makes 3
attempts, sleeps 1000ms and then 2000ms between them, and only then
re-raises the error: the claim is false (the catch block of `getAsset` at
lines 39-45 never inspects the error class). -/
theorem C1_counterexample :
    (assetClientGetAsset 3 1000
      (fun _ => txAttempt (Except.ok ()) exDBempty "svc" "reg" "key" "id1" 0)).attemptsMade = 3 ∧
    (assetClientGetAsset 3 1000
      (fun _ => txAttempt (Except.ok ()) exDBempty "svc" "reg" "key" "id1" 0)).delays = [1000, 2000] ∧
    (assetClientGetAsset 3 1000
      (fun _ => txAttempt (Except.ok ()) exDBempty "svc" "reg" "key" "id1" 0)).result =
      Except.error (GetAssetError.assetNotFound "Asset reg/key not found") :=
  ⟨rfl, rfl, rfl⟩

/-- C1 amended: `AssetNotFound` is retried exactly like any other failure.
When every transactional attempt fails with `AssetNotFound`, `getAsset` with
limit `m ≥ 1` makes all `m` attempts, sleeping `retryDelay * n` after the nth
failed attempt for `n = 1 .. m-1`, and re-raises the `AssetNotFound` error
only after exhausting the limit. -/
theorem C1_notfound_is_retried (m d : Nat) (hm : 1 ≤ m) (msg : String)
    (attempt : Nat → Except GetAssetError String)
    (hatt : ∀ n, attempt n = Except.error (GetAssetError.assetNotFound msg)) :
    assetClientGetAsset m d attempt =
      { result := Except.error (GetAssetError.assetNotFound msg)
        attemptsMade := m
        delays := (List.range' 1 (m - 1)).map (fun n => d * n) } :=
  retryLoopAux_const_error m d attempt _ hatt m 0 (by omega) (by omega)

/-- C1 amended, witnessed at maxRetries 3, retryDelay 1000. -/
theorem C1_notfound_is_retried_witness :
    1 ≤ 3 ∧
    assetClientGetAsset 3 1000 (fun _ => Except.error (GetAssetError.assetNotFound "nf")) =
      { result := Except.error (GetAssetError.assetNotFound "nf")
        attemptsMade := 3
        delays := (List.range' 1 (3 - 1)).map (fun n => 1000 * n) } :=
  ⟨by omega,
   C1_notfound_is_retried 3 1000 (by omega) "nf"
     (fun _ => Except.error (GetAssetError.assetNotFound "nf")) (fun _ => rfl)⟩

/-- C4: the claim says exhausting the retry limit always raises an
`AssetUpdateError` wrapping the last failure, even when the last failure was
a connection-acquisition failure.  At the concrete input below — maxRetries
3, every attempt failing to acquire a pooled connection — the error finally
raised is the `DatabaseConnectionError` itself, unwrapped (line 42 of
`getAsset` rethrows the caught error as-is, and line 52 of
`getAssetWithTransaction` acquires the connection outside the try block that
wraps errors): the claim is false. -/
theorem C4_counterexample :
    (assetClientGetAsset 3 1000
      (fun _ => txAttempt (Except.error "timeout") exDBempty "svc" "reg" "key" "id1" 0)).result =
      Except.error (GetAssetError.databaseConnectionError "Failed to connect to database: timeout") ∧
    GetAssetError.isAssetUpdateError
      (GetAssetError.databaseConnectionError "Failed to connect to database: timeout") = false :=
  ⟨rfl, rfl⟩

/-- C4 amended: `getAsset` repeats the transactional attempt up to the
configured limit `m` on any failure (`AssetNotFound` included), waiting
`retryDelay * n` after the nth failed attempt, and when the limit is
exhausted it re-raises the last failure unchanged — so a run of
connection-acquisition failures surfaces as the `DatabaseConnectionError`
built by `getConnection`, not as an `AssetUpdateError`. -/
theorem C4_exhaustion_reraises_last_error (m d : Nat) (hm : 1 ≤ m) (cmsg : String)
    (db : DB) (uk reg key newId : String) (now : Nat) :
    assetClientGetAsset m d (fun _ => txAttempt (Except.error cmsg) db uk reg key newId now) =
      { result := Except.error
          (GetAssetError.databaseConnectionError ("Failed to connect to database: " ++ cmsg))
        attemptsMade := m
        delays := (List.range' 1 (m - 1)).map (fun n => d * n) } :=
  retryLoopAux_const_error m d _ _ (fun _ => rfl) m 0 (by omega) (by omega)

/-- C4 amended, witnessed at maxRetries 3, retryDelay 1000, all attempts
failing to connect. -/
theorem C4_exhaustion_reraises_last_error_witness :
    1 ≤ 3 ∧
    assetClientGetAsset 3 1000
      (fun _ => txAttempt (Except.error "timeout") exDBempty "svc" "reg" "key" "id1" 0) =
      { result := Except.error
          (GetAssetError.databaseConnectionError "Failed to connect to database: timeout")
        attemptsMade := 3
        delays := (List.range' 1 (3 - 1)).map (fun n => 1000 * n) } :=
  ⟨by omega,
   C4_exhaustion_reraises_last_error 3 1000 (by omega) "timeout" exDBempty "svc" "reg" "key" "id1" 0⟩

/-- C9: when no master row exists for (registry, key), the transactional
attempt raises `AssetNotFound` and rolls back: the resulting store is exactly
the pre-state, so nothing is written to any of the three record families.
(The registered-row query may well be nonempty — the witness uses a store
that has a registered row but no master — the master check alone decides.) -/
theorem C9_no_master_rolls_back (db : DB) (uk reg key newId : String) (now : Nat)
    (hmas : queryMaster db reg key = []) :
    getAssetTx db uk reg key newId now =
      (db, Except.error (GetAssetError.assetNotFound ("Asset " ++ reg ++ "/" ++ key ++ " not found"))) := by
  unfold getAssetTx getAssetWithTransaction
  rw [hmas]

/-- C9, witnessed on a store holding a registered row for ("r","k") but no
master row. -/
theorem C9_no_master_rolls_back_witness :
    queryMaster exDBregisteredOnly "r" "k" = [] ∧
    getAssetTx exDBregisteredOnly "svc" "r" "k" "n1" 7 =
      (exDBregisteredOnly, Except.error (GetAssetError.assetNotFound "Asset r/k not found")) :=
  ⟨rfl, C9_no_master_rolls_back exDBregisteredOnly "svc" "r" "k" "n1" 7 rfl⟩

/-- C3: with a master row present and no registered row for this consumer, a
successful attempt appends exactly one registered row to the asset table —
its content columns (class, type, description, payload, fingerprint, revision
id, revision URL) copied from the master row and its `user_key` set to this
consumer — appends exactly one retrieval-log entry, leaves the archive log
untouched, and returns the master's payload. -/
theorem C3_first_call_registers (db : DB) (uk reg key newId : String) (now : Nat)
    (m : Asset) (ms : List Asset)
    (hmas : queryMaster db reg key = m :: ms)
    (hreg : queryRegistered db uk reg key = []) :
    getAssetTx db uk reg key newId now =
      ({ asset := db.asset ++ [registrationRow uk m newId now]
         asset_log := db.asset_log
         asset_retrieval := db.asset_retrieval ++
           [{ user_key := uk, asset_id := newId, asset_registry := reg, asset_key := key }] },
       Except.ok m.data) ∧
    (registrationRow uk m newId now).user_key = some uk ∧
    (registrationRow uk m newId now).asset_class = m.asset_class ∧
    (registrationRow uk m newId now).asset_type = m.asset_type ∧
    (registrationRow uk m newId now).description = m.description ∧
    (registrationRow uk m newId now).data = m.data ∧
    (registrationRow uk m newId now).data_hash = m.data_hash ∧
    (registrationRow uk m newId now).registry_commit = m.registry_commit ∧
    (registrationRow uk m newId now).registry_commit_url = m.registry_commit_url := by
  refine ⟨?_, rfl, rfl, rfl, rfl, rfl, rfl, rfl, rfl⟩
  unfold getAssetTx getAssetWithTransaction
  rw [hmas, hreg]
  rfl

/-- C3, witnessed on a store holding only the master row. -/
theorem C3_first_call_registers_witness :
    queryMaster exDBmasterOnly "r" "k" = [exMaster] ∧
    queryRegistered exDBmasterOnly "svc" "r" "k" = [] ∧
    getAssetTx exDBmasterOnly "svc" "r" "k" "n1" 7 =
      ({ asset := [exMaster, registrationRow "svc" exMaster "n1" 7]
         asset_log := []
         asset_retrieval := [{ user_key := "svc", asset_id := "n1", asset_registry := "r", asset_key := "k" }] },
       Except.ok "payload-v2") :=
  ⟨rfl, rfl,
   (C3_first_call_registers exDBmasterOnly "svc" "r" "k" "n1" 7 exMaster [] rfl rfl).1⟩

/-- C2: with a registered row whose fingerprint differs from the master's, a
successful attempt appends to the archive log exactly one entry holding the
registered row's prior content verbatim (its original `id` and `created_at`
included), overwrites the registered row's content columns in place —
updating only the row whose `id` matches, which keeps the identifier — and
appends one retrieval-log entry for that same identifier, returning the
master's payload. -/
theorem C2_stale_archives_then_updates (db : DB) (uk reg key newId : String) (now : Nat)
    (r m : Asset) (rs ms : List Asset)
    (hreg : queryRegistered db uk reg key = r :: rs)
    (hmas : queryMaster db reg key = m :: ms)
    (hne : r.data_hash ≠ m.data_hash) :
    getAssetTx db uk reg key newId now =
      ({ asset := db.asset.map (fun a => if a.id = r.id then applyUpdate m now a else a)
         asset_log := db.asset_log ++ [archiveEntry r]
         asset_retrieval := db.asset_retrieval ++
           [{ user_key := uk, asset_id := r.id, asset_registry := reg, asset_key := key }] },
       Except.ok m.data) ∧
    (archiveEntry r).asset_id = r.id ∧
    (archiveEntry r).created_at = r.created_at ∧
    (archiveEntry r).data = r.data ∧
    (archiveEntry r).data_hash = r.data_hash ∧
    (archiveEntry r).description = r.description ∧
    (archiveEntry r).registry_commit = r.registry_commit ∧
    (applyUpdate m now r).id = r.id ∧
    (applyUpdate m now r).user_key = r.user_key ∧
    (applyUpdate m now r).data = m.data ∧
    (applyUpdate m now r).data_hash = m.data_hash ∧
    (applyUpdate m now r).registry_commit = m.registry_commit ∧
    (applyUpdate m now r).registry_commit_url = m.registry_commit_url ∧
    (applyUpdate m now r).description = m.description ∧
    (applyUpdate m now r).created_at = now := by
  refine ⟨?_, rfl, rfl, rfl, rfl, rfl, rfl, rfl, rfl, rfl, rfl, rfl, rfl, rfl, rfl⟩
  unfold getAssetTx getAssetWithTransaction
  rw [hmas, hreg]
  simp only [if_neg hne]
  rfl

/-- C2, witnessed on a store holding the master row and a stale registered
row. -/
theorem C2_stale_archives_then_updates_witness :
    queryRegistered exDBstale "svc" "r" "k" = [exRegistered] ∧
    queryMaster exDBstale "r" "k" = [exMaster] ∧
    exRegistered.data_hash ≠ exMaster.data_hash ∧
    getAssetTx exDBstale "svc" "r" "k" "n1" 7 =
      ({ asset := [exMaster, applyUpdate exMaster 7 exRegistered]
         asset_log := [archiveEntry exRegistered]
         asset_retrieval := [{ user_key := "svc", asset_id := "a1", asset_registry := "r", asset_key := "k" }] },
       Except.ok "payload-v2") :=
  ⟨rfl, rfl, by decide,
   (C2_stale_archives_then_updates exDBstale "svc" "r" "k" "n1" 7 exRegistered exMaster [] []
     rfl rfl (by decide)).1⟩

/-- C8: with a registered row whose fingerprint equals the master's, the
attempt leaves the asset table and the archive log exactly as they were — in
particular the registered row itself is untouched — appends exactly one new
retrieval-log entry, and returns the registered row's existing payload. -/
theorem C8_current_registration_audit_only (db : DB) (uk reg key newId : String) (now : Nat)
    (r m : Asset) (rs ms : List Asset)
    (hreg : queryRegistered db uk reg key = r :: rs)
    (hmas : queryMaster db reg key = m :: ms)
    (heq : r.data_hash = m.data_hash) :
    getAssetTx db uk reg key newId now =
      ({ asset := db.asset
         asset_log := db.asset_log
         asset_retrieval := db.asset_retrieval ++
           [{ user_key := uk, asset_id := r.id, asset_registry := reg, asset_key := key }] },
       Except.ok r.data) := by
  unfold getAssetTx getAssetWithTransaction
  rw [hmas, hreg]
  simp only [if_pos heq]
  rfl

/-- C8, witnessed on a store whose registered row is already current; the
call appends one retrieval entry and nothing else. -/
theorem C8_current_registration_audit_only_witness :
    queryRegistered exDBcurrent "svc" "r" "k" = [exRegisteredCurrent] ∧
    queryMaster exDBcurrent "r" "k" = [exMaster] ∧
    exRegisteredCurrent.data_hash = exMaster.data_hash ∧
    getAssetTx exDBcurrent "svc" "r" "k" "n1" 7 =
      ({ asset := exDBcurrent.asset
         asset_log := []
         asset_retrieval := [{ user_key := "svc", asset_id := "a1", asset_registry := "r", asset_key := "k" }] },
       Except.ok "payload-v2") :=
  ⟨rfl, rfl, rfl,
   C8_current_registration_audit_only exDBcurrent "svc" "r" "k" "n1" 7
     exRegisteredCurrent exMaster [] [] rfl rfl rfl⟩

/-- C5: the claim says a malformed snapshot never partially applies and in
particular never leaves the cache cleared.  At the concrete input below — a
cache holding one entry and an import whose `JSON.parse` succeeds with a
non-iterable value (for example the input string "42") — the import fails
with a descriptive error, yet the cache ends up empty, not as it was before
the call: `this.fallbackCache.clear()` (line 138) runs before the `for...of`
loop throws, and the catch block (lines 146-148) does not restore the cache.
The claim is false. -/
theorem C5_counterexample :
    importFallbackCache [("r/k", { data := "v", lastUpdated := 1 })]
        (ParseResult.nonArray "cache is not iterable") =
      ([], some "Failed to import fallback cache: cache is not iterable") ∧
    ([("r/k", { data := "v", lastUpdated := 1 })] : Cache) ≠ ([] : Cache) :=
  ⟨rfl, by decide⟩

/-- C5 amended: `importFallbackCache` is atomic only against parse failures.
If `JSON.parse` throws, the import fails with a descriptive error and the
cache is exactly as before the call; if parsing yields an array, the cache is
fully replaced by the snapshot's entries and no error is raised; but if
parsing succeeds with a non-iterable value, the import fails with a
descriptive error while leaving the cache cleared. -/
theorem C5_import_atomic_only_for_parse_errors (c : Cache) (p : ParseResult) :
    (∀ msg, p = ParseResult.err msg →
      importFallbackCache c p = (c, some ("Failed to import fallback cache: " ++ msg))) ∧
    (∀ es, p = ParseResult.arr es →
      importFallbackCache c p =
        (es.foldl (fun acc e => cacheSet acc e.1 { data := e.2.1, lastUpdated := e.2.2 }) [], none)) ∧
    (∀ msg, p = ParseResult.nonArray msg →
      importFallbackCache c p = ([], some ("Failed to import fallback cache: " ++ msg))) := by
  refine ⟨?_, ?_, ?_⟩ <;> (intro x h; subst h; rfl)

/-- C5 amended, witnessed on the parse-failure case: the cache is untouched. -/
theorem C5_import_atomic_only_for_parse_errors_witness :
    importFallbackCache [("r/k", { data := "v", lastUpdated := 1 })]
        (ParseResult.err "Unexpected token") =
      ([("r/k", { data := "v", lastUpdated := 1 })],
       some "Failed to import fallback cache: Unexpected token") :=
  (C5_import_atomic_only_for_parse_errors [("r/k", { data := "v", lastUpdated := 1 })]
     (ParseResult.err "Unexpected token")).1 "Unexpected token" rfl

/-- C6: when the wrapped `getAsset` fails inside `getAssetWithFallback`: if
the fallback map holds an entry under the composite key, that entry's cached
payload is returned and the offline flag is set exactly when the failure is a
`DatabaseConnectionError` (otherwise it keeps its previous value); if the map
holds no entry, the very same error value is re-raised and the state — cache
and offline flag — is returned untouched. -/
theorem C6_failure_uses_cache_or_propagates (st : ResilientState) (reg key : String)
    (e : GetAssetError) (now : Nat) :
    (∀ entry, cacheGet st.fallbackCache (reg ++ "/" ++ key) = some entry →
      getAssetWithFallback st reg key (Except.error e) now =
        ({ st with isOfflineMode :=
            if GetAssetError.isDatabaseConnectionError e then true else st.isOfflineMode },
         Except.ok entry.data)) ∧
    (cacheGet st.fallbackCache (reg ++ "/" ++ key) = none →
      getAssetWithFallback st reg key (Except.error e) now = (st, Except.error e)) := by
  constructor
  · intro entry h
    unfold getAssetWithFallback
    rw [h]
  · intro h
    unfold getAssetWithFallback
    rw [h]

/-- C6, witnessed with a cached entry and a connection failure: the cached
payload comes back and the offline flag turns on. -/
theorem C6_failure_uses_cache_or_propagates_witness :
    cacheGet ([("r/k", { data := "v", lastUpdated := 1 })] : Cache) ("r" ++ "/" ++ "k") =
      some { data := "v", lastUpdated := 1 } ∧
    getAssetWithFallback
        { fallbackCache := [("r/k", { data := "v", lastUpdated := 1 })], isOfflineMode := false }
        "r" "k" (Except.error (GetAssetError.databaseConnectionError "down")) 5 =
      ({ fallbackCache := [("r/k", { data := "v", lastUpdated := 1 })], isOfflineMode := true },
       Except.ok "v") :=
  ⟨rfl,
   (C6_failure_uses_cache_or_propagates
      { fallbackCache := [("r/k", { data := "v", lastUpdated := 1 })], isOfflineMode := false }
      "r" "k" (GetAssetError.databaseConnectionError "down") 5).1
     { data := "v", lastUpdated := 1 } rfl⟩

/-- C7: the claim says that whenever the store is reachable again the health
probe succeeds and the offline flag is cleared.  At the concrete input below
the store is reachable — the connection is acquired and the transaction runs
on a store that holds master content for ("r","k") — yet the probe
`super.getAsset('health-check', 'test')` (line 159) exhausts its retries with
`AssetNotFound` because no master row exists for ("health-check","test"), the
tick's catch swallows the error, and the offline flag stays set: the claim is
false. -/
theorem C7_counterexample :
    (assetClientGetAsset 3 1000
      (fun _ => txAttempt (Except.ok ()) exDBmasterOnly "svc" "health-check" "test" "hid" 9)).result =
      Except.error (GetAssetError.assetNotFound "Asset health-check/test not found") ∧
    (healthCheckTick
      { fallbackCache := [("r/k", { data := "v", lastUpdated := 1 })], isOfflineMode := true }
      (assetClientGetAsset 3 1000
        (fun _ => txAttempt (Except.ok ()) exDBmasterOnly "svc" "health-check" "test" "hid" 9)).result) =
      ({ fallbackCache := [("r/k", { data := "v", lastUpdated := 1 })], isOfflineMode := true }, true) :=
  ⟨rfl, rfl⟩

/-- C7 amended: while the offline flag is set each tick issues the probe, a
successful probe clears the flag, and a failed probe leaves it set; but the
probe is a full `getAsset` for ("health-check","test"), so it succeeds only
when a master row for that pair exists — on a reachable store without such a
row every probe attempt raises `AssetNotFound` and the flag stays set.  When
the flag is clear the tick issues no probe and changes nothing. -/
theorem C7_probe_needs_health_check_asset (st : ResilientState)
    (probe : Except GetAssetError String) :
    (∀ s, st.isOfflineMode = true → probe = Except.ok s →
      healthCheckTick st probe = ({ st with isOfflineMode := false }, true)) ∧
    (∀ e, st.isOfflineMode = true → probe = Except.error e →
      healthCheckTick st probe = (st, true)) ∧
    (st.isOfflineMode = false → healthCheckTick st probe = (st, false)) ∧
    (∀ (db : DB) (uk newId : String) (now : Nat),
      queryMaster db "health-check" "test" = [] →
      txAttempt (Except.ok ()) db uk "health-check" "test" newId now =
        Except.error (GetAssetError.assetNotFound "Asset health-check/test not found")) := by
  refine ⟨?_, ?_, ?_, ?_⟩
  · intro s hoff hp
    subst hp
    simp [healthCheckTick, hoff]
  · intro e hoff hp
    subst hp
    simp [healthCheckTick, hoff]
  · intro hoff
    simp [healthCheckTick, hoff]
  · intro db uk newId now hq
    unfold txAttempt getConnection getAssetTx getAssetWithTransaction
    rw [hq]
    rfl

/-- C7 amended, witnessed: an offline client whose probe fails with
`AssetNotFound` on a reachable store missing the ("health-check","test")
master row stays offline. -/
theorem C7_probe_needs_health_check_asset_witness :
    ({ fallbackCache := [], isOfflineMode := true } : ResilientState).isOfflineMode = true ∧
    queryMaster exDBmasterOnly "health-check" "test" = [] ∧
    txAttempt (Except.ok ()) exDBmasterOnly "svc" "health-check" "test" "hid" 9 =
      Except.error (GetAssetError.assetNotFound "Asset health-check/test not found") ∧
    healthCheckTick { fallbackCache := [], isOfflineMode := true }
        (Except.error (GetAssetError.assetNotFound "Asset health-check/test not found")) =
      ({ fallbackCache := [], isOfflineMode := true }, true) :=
  ⟨rfl, rfl,
   (C7_probe_needs_health_check_asset { fallbackCache := [], isOfflineMode := true }
      (Except.error (GetAssetError.assetNotFound "Asset health-check/test not found"))).2.2.2
     exDBmasterOnly "svc" "hid" 9 rfl,
   (C7_probe_needs_health_check_asset { fallbackCache := [], isOfflineMode := true }
      (Except.error (GetAssetError.assetNotFound "Asset health-check/test not found"))).2.1
     (GetAssetError.assetNotFound "Asset health-check/test not found") rfl rfl⟩

/-- C10: a successful `getAssetWithFallback` stores its entry under the
composite key `registry ++ "/" ++ key`; `clearFallbackCache` with a non-empty
argument that is not a key of the cache — in particular a bare asset key
differing from every stored composite key — deletes nothing and leaves the
cache unchanged; `clearFallbackCache` with no argument empties the whole
cache. -/
theorem C10_clear_by_bare_key_is_noop (st : ResilientState) (reg key d : String) (now : Nat)
    (c : Cache) (bare : String) (hne : bare ≠ "") (hmem : ∀ p ∈ c, p.1 ≠ bare) :
    (getAssetWithFallback st reg key (Except.ok d) now).1.fallbackCache =
      cacheSet st.fallbackCache (reg ++ "/" ++ key) { data := d, lastUpdated := now } ∧
    clearFallbackCache c (some bare) = c ∧
    clearFallbackCache c none = [] := by
  refine ⟨rfl, ?_, rfl⟩
  unfold clearFallbackCache cacheDelete
  show (if bare = "" then [] else c.filter (fun p => p.1 != bare)) = c
  rw [if_neg hne]
  apply List.filter_eq_self.mpr
  intro p hp
  simpa using hmem p hp

/-- C10, witnessed: the entry for registry "r", key "k" lives under "r/k";
clearing by the bare key "k" is a no-op and clearing with no argument empties
the cache. -/
theorem C10_clear_by_bare_key_is_noop_witness :
    (getAssetWithFallback { fallbackCache := [], isOfflineMode := false }
        "r" "k" (Except.ok "v") 1).1.fallbackCache =
      cacheSet [] ("r" ++ "/" ++ "k") { data := "v", lastUpdated := 1 } ∧
    clearFallbackCache [("r/k", { data := "v", lastUpdated := 1 })] (some "k") =
      [("r/k", { data := "v", lastUpdated := 1 })] ∧
    clearFallbackCache [("r/k", { data := "v", lastUpdated := 1 })] none = [] :=
  C10_clear_by_bare_key_is_noop { fallbackCache := [], isOfflineMode := false }
    "r" "k" "v" 1 [("r/k", { data := "v", lastUpdated := 1 })] "k"
    (by decide) (by decide)

end AssetSpec
